import Mathlib

/-
Verification of the authentication/session-token slice of the fsp backend.

The Python source is shallowly embedded: document collections become Lists,
MongoDB find_one / update_one / find_one_and_update become executable List
functions, timestamps are Nat seconds, and external collaborators (bcrypt
hasher, JWT library, SMTP dispatch, OAuth exchange) are modelled from the
specification contracts as small deterministic functions or oracles passed
in as arguments.
-/

set_option autoImplicit false

namespace FSP

/-- A user document as stored in the users collection (src/routers/auth.py
signup, src/services/auth_service.py). Optional fields model keys that may
be absent from the Mongo document. -/
structure UserRec where
  id : String
  email : String
  username : String
  name : String
  password_hash : Option String
  phone : Option String
  is_verified : Bool
  email_verified : Bool
  email_verified_at : Option Nat
  verification_token : Option String
  password_reset_token : Option String
  password_reset_expires : Option Nat
  is_active : Option Bool
  created_at : Nat
  updated_at : Nat
deriving Repr, DecidableEq

/-- Python truthiness of an optional string field: `not user.get(k)` is True
when the key is absent or the value is the empty string. -/
def strTruthy : Option String → Bool
  | none => false
  | some s => s != ""

/-- Mongo update_one: rewrite the first document matching the filter. -/
def updateFirst {α : Type} (p : α → Bool) (f : α → α) : List α → List α
  | [] => []
  | x :: xs => if p x then f x :: xs else x :: updateFirst p f xs

/-- Mongo find_one_and_update with return_document=True: rewrite the first
matching document and return it (post-update), or return none. -/
def findOneAndUpdate {α : Type} (p : α → Bool) (f : α → α) : List α → Option α × List α
  | [] => (none, [])
  | x :: xs =>
    if p x then (some (f x), f x :: xs)
    else
      let r := findOneAndUpdate p f xs
      (r.1, x :: r.2)

/-- Modelled from the spec: §4.1 Password Hasher (external passlib/bcrypt,
and utils/password_utils.py which is not under src/). The contract needs a
deterministic digest with `verify(plain, digest)` true exactly when the
digest was produced from plain; a tagged injection suffices. -/
def get_password_hash (password : String) : String := "$2b$12$" ++ password

/-- Modelled from the spec: §4.1 Password Hasher verify side. -/
def verify_password (plain hashed : String) : Bool := hashed == get_password_hash plain

/-- src/services/auth_service.py get_user_by_email. -/
def get_user_by_email (db : List UserRec) (email : String) : Option UserRec :=
  db.find? (fun u => u.email == email)

/-- src/services/auth_service.py get_user_by_id. -/
def get_user_by_id (db : List UserRec) (user_id : String) : Option UserRec :=
  db.find? (fun u => u.id == user_id)

/-- src/services/auth_service.py authenticate_user (lines 115-134): lookup by
email, reject absent/empty password_hash, check the password, then check
is_active with default True; failures carry no user data. -/
def authenticate_user (db : List UserRec) (email password : String) :
    Bool × Option UserRec × String :=
  match get_user_by_email db email with
  | none => (false, none, "Invalid email or password")
  | some user =>
    if !strTruthy user.password_hash then
      (false, none, "Please login with your social account")
    else if !verify_password password (user.password_hash.getD "") then
      (false, none, "Invalid email or password")
    else if !(user.is_active.getD true) then
      (false, none, "Account is disabled")
    else
      (true, some user, "")

theorem get_password_hash_ne_empty (p : String) : get_password_hash p ≠ "" := by
  intro h
  have hl := congrArg String.length h
  simp [get_password_hash] at hl
  exact absurd hl.1 (by decide)

/-- Claim C8: for a user stored with a bcrypt password hash (as signup stores
it), authenticate_user succeeds exactly when the supplied password verifies
against the stored hash and is_active is not false; every failure returns no
user data. -/
theorem C8_authenticate_user_iff (db : List UserRec) (e p q : String) (u : UserRec)
    (hu : get_user_by_email db e = some u)
    (hph : u.password_hash = some (get_password_hash p)) :
    ((authenticate_user db e q).1 = true ↔
      (verify_password q (get_password_hash p) = true ∧ u.is_active.getD true = true))
    ∧ ((authenticate_user db e q).1 = false → (authenticate_user db e q).2.1 = none) := by
  have hne : get_password_hash p ≠ "" := get_password_hash_ne_empty p
  have h1 : (get_password_hash p != "") = true := by
    simpa [bne_iff_ne] using hne
  cases hv : verify_password q (get_password_hash p) with
  | false =>
    simp [authenticate_user, hu, hph, strTruthy, h1, hv]
  | true =>
    cases hact : u.is_active.getD true with
    | false => simp [authenticate_user, hu, hph, strTruthy, h1, hv, hact]
    | true => simp [authenticate_user, hu, hph, strTruthy, h1, hv, hact]

def c8User : UserRec :=
  { id := "u1", email := "a@x.com", username := "a@x.com", name := "A",
    password_hash := some (get_password_hash "Secret1!"), phone := none,
    is_verified := false, email_verified := false, email_verified_at := none,
    verification_token := none, password_reset_token := none,
    password_reset_expires := none, is_active := none,
    created_at := 0, updated_at := 0 }

/-- Witness for C8 at a concrete store and credentials. -/
theorem C8_authenticate_user_iff_witness :
    (((authenticate_user [c8User] "a@x.com" "Secret1!").1 = true ↔
      (verify_password "Secret1!" (get_password_hash "Secret1!") = true ∧
        c8User.is_active.getD true = true))
    ∧ ((authenticate_user [c8User] "a@x.com" "Secret1!").1 = false →
        (authenticate_user [c8User] "a@x.com" "Secret1!").2.1 = none)) :=
  C8_authenticate_user_iff [c8User] "a@x.com" "Secret1!" "Secret1!" c8User
    (by decide) (by decide)

/-- Parameter names of src/services/auth_service.py authenticate_social_user
(line 292): def authenticate_social_user(provider, email, name, verified=False). -/
def authenticate_social_user_params : List String :=
  ["provider", "email", "name", "verified"]

/-- Keyword arguments src/routers/auth.py social_login (lines 204-209) passes
to authenticate_social_user. -/
def social_login_call_kwargs : List String :=
  ["provider", "provider_user_id", "email", "name"]

/-- Python keyword-argument binding succeeds only if every supplied keyword
names a declared parameter; otherwise the call raises TypeError. -/
def kwargsBind (params kwargs : List String) : Bool :=
  kwargs.all (fun k => params.contains k)

/-- Request body of POST /api/auth/social-login (models/auth.py SocialLoginInput). -/
structure SocialLoginInput where
  provider : String
  provider_user_id : String
  email : String
  name : String
deriving Repr, DecidableEq

inductive SocialLoginOutcome
  | tokenResponse (userId : String)
  | typeError
deriving Repr, DecidableEq

/-- src/routers/auth.py social_login (lines 202-212): the handler invokes
authenticate_social_user with the keyword set social_login_call_kwargs; if
that set fails to bind against the function parameters the interpreter
raises TypeError at the call site (the handler has no surrounding try), so
the endpoint cannot produce a token response. The bound branch is
unreachable for the kwarg set actually written in the source. -/
def social_login (data : SocialLoginInput) : SocialLoginOutcome :=
  if kwargsBind authenticate_social_user_params social_login_call_kwargs then
    .tokenResponse data.email
  else
    .typeError

/-- Claim C5: every request to the social-login endpoint raises TypeError
because the call passes provider_user_id, which authenticate_social_user
does not declare; no input can yield a token response. -/
theorem C5_social_login_always_type_error (data : SocialLoginInput) :
    social_login data = SocialLoginOutcome.typeError := rfl

/-- A bearer token as the JWT library sees it: the raw string, whether the
signature and structure check out, the embedded expiry, and the sub claim.
Modelled from the spec: §4.2 Token Issuer (utils/token_utils.py is not under
src/) and the external PyJWT/jose library. -/
structure JwtToken where
  raw : String
  wellFormed : Bool
  exp : Nat
  sub : Option String
deriving Repr, DecidableEq

inductive JwtDecodeOutcome
  | payload (sub : Option String)
  | expiredErr
  | decodeErr
deriving Repr, DecidableEq

/-- Modelled from the spec: external JWT decode — structural/signature error,
then expiry check, then the claim set. -/
def jwt_decode (now : Nat) (tok : JwtToken) : JwtDecodeOutcome :=
  if !tok.wellFormed then .decodeErr
  else if tok.exp ≤ now then .expiredErr
  else .payload tok.sub

inductive AuthOutcome
  | ok (user : UserRec)
  | httpError (code : Nat) (detail : String)
deriving Repr, DecidableEq

/-- src/middleware/auth.py get_current_user (lines 13-76): empty-token check,
then the blacklisted_tokens lookup, then JWT decode (expired / malformed),
then the sub claim (falsy check), then the user lookup. The revocation store
is a list of {token, created_at} entries. -/
def middleware_get_current_user (blacklist : List (String × Nat)) (db : List UserRec)
    (now : Nat) (tok : JwtToken) : AuthOutcome :=
  if tok.raw == "" then .httpError 401 "No authentication token provided"
  else if blacklist.any (fun e => e.1 == tok.raw) then
    .httpError 401 "Token has been invalidated"
  else
    match jwt_decode now tok with
    | .decodeErr => .httpError 401 "Invalid token format"
    | .expiredErr => .httpError 401 "Token has expired"
    | .payload s =>
      if s.getD "" == "" then .httpError 401 "Invalid token claims"
      else
        match get_user_by_id db (s.getD "") with
        | none => .httpError 401 "User not found"
        | some u => .ok u

/-- src/routers/auth.py get_current_user (lines 73-94): decodes the JWT and
loads the user, with a single generic failure message; it never consults the
blacklisted_tokens collection. This validator is live: it backs
middleware/verification.verify_email_required, attached to the subscription
router in src/main.py (line 73). -/
def router_get_current_user (db : List UserRec) (now : Nat) (tok : JwtToken) : AuthOutcome :=
  match jwt_decode now tok with
  | .decodeErr => .httpError 401 "Could not validate credentials"
  | .expiredErr => .httpError 401 "Could not validate credentials"
  | .payload none => .httpError 401 "Could not validate credentials"
  | .payload (some uid) =>
    match get_user_by_id db uid with
    | none => .httpError 401 "Could not validate credentials"
    | some u => .ok u

def c1User : UserRec :=
  { id := "u1", email := "a@x.com", username := "a@x.com", name := "A",
    password_hash := some (get_password_hash "pw"), phone := none,
    is_verified := true, email_verified := true, email_verified_at := none,
    verification_token := none, password_reset_token := none,
    password_reset_expires := none, is_active := none,
    created_at := 0, updated_at := 0 }

def c1Token : JwtToken :=
  { raw := "tok1", wellFormed := true, exp := 1000, sub := some "u1" }

/-- Counterexample to claim C1 as stated: a well-formed, unexpired token that
sits in the revocation store is accepted by the router-local validator, so
not every bearer-token validation path rejects revoked tokens. -/
theorem C1_counterexample_router_accepts_revoked :
    ([("tok1", 0)] : List (String × Nat)).any (fun e => e.1 == c1Token.raw) = true
    ∧ c1Token.wellFormed = true
    ∧ (0 : Nat) < c1Token.exp
    ∧ router_get_current_user [c1User] 0 c1Token = AuthOutcome.ok c1User := by
  refine ⟨by decide, rfl, by decide, ?_⟩
  rfl

/-- Claim C1 (amended): for the middleware validator, a nonempty token found
in the revocation store is rejected 401 Token has been invalidated, and the
lookup precedes signature/expiry verification, so the rejection holds for
any wellFormed flag and any expiry; the router-local validator performs no
revocation lookup (see the counterexample). -/
theorem C1_middleware_revoked_token_invalidated (blacklist : List (String × Nat))
    (db : List UserRec) (now : Nat) (tok : JwtToken)
    (hne : tok.raw ≠ "")
    (hbl : blacklist.any (fun e => e.1 == tok.raw) = true) :
    middleware_get_current_user blacklist db now tok
      = AuthOutcome.httpError 401 "Token has been invalidated" := by
  simp [middleware_get_current_user, hne, hbl]

/-- Witness for the amended C1: a concrete revoked token that is expired and
malformed still reports invalidated. -/
theorem C1_middleware_revoked_token_invalidated_witness :
    middleware_get_current_user [("tok1", 0)] []  5
      { raw := "tok1", wellFormed := false, exp := 1, sub := none }
      = AuthOutcome.httpError 401 "Token has been invalidated" :=
  C1_middleware_revoked_token_invalidated [("tok1", 0)] [] 5
    { raw := "tok1", wellFormed := false, exp := 1, sub := none }
    (by decide) (by decide)

/-- src/routers/auth.py line 53. -/
def RATE_LIMIT_DURATION : Nat := 60

/-- src/routers/auth.py line 54. -/
def RATE_LIMIT_ATTEMPTS : Nat := 5

/-- src/routers/auth.py check_rate_limit (lines 56-65) for one client key:
drop entries outside the sliding window, deny at the threshold without
recording, otherwise record now. Returns the decision and the new history. -/
def check_rate_limit (history : List Nat) (now : Nat) : Bool × List Nat :=
  let recent := history.filter (fun t => now - t < RATE_LIMIT_DURATION)
  if RATE_LIMIT_ATTEMPTS ≤ recent.length then (false, recent)
  else (true, recent ++ [now])

inductive LoginOutcome
  | tokenResponse (userId : String)
  | httpError (code : Nat) (detail : String)
deriving Repr, DecidableEq

/-- Modelled from the spec: out-of-scope HTTP framework detail — the string
form of a starlette HTTPException, used when the login handler catches its
own raised exception and re-raises it with detail = str(e). -/
def httpExceptionStr (code : Nat) (detail : String) : String :=
  toString code ++ ": " ++ detail

/-- src/routers/auth.py login (lines 162-200). The handler is embedded with
the module-level rate_limits map (per-client histories) threaded through so
that sequences of requests can be expressed; faithfully to the source, the
body never reads or writes it and never calls check_rate_limit, so it is
returned unchanged. A failed authentication raises 401 inside the try block,
which the generic except clause re-raises as 401 with detail str(e). -/
def login (db : List UserRec) (rate_limits : List (String × List Nat))
    (client_ip username password : String) (now : Nat) :
    LoginOutcome × List (String × List Nat) :=
  match authenticate_user db username password with
  | (false, _, error) => (.httpError 401 (httpExceptionStr 401 error), rate_limits)
  | (true, some user, _) => (.tokenResponse user.id, rate_limits)
  | (true, none, _) => (.httpError 401 (httpExceptionStr 401 ""), rate_limits)

/-- Run the login handler once per timestamp, threading the rate_limits map. -/
def runLogins (db : List UserRec) (ip u p : String) :
    List Nat → List (String × List Nat) → List LoginOutcome × List (String × List Nat)
  | [], rl => ([], rl)
  | t :: ts, rl =>
    let r := login db rl ip u p t
    let rest := runLogins db ip u p ts r.2
    (r.1 :: rest.1, rest.2)

/-- Counterexample to claim C2 as stated: six wrong-password login attempts
from one client within sixty seconds all return the 401 invalid-credentials
error — the sixth is not a rate-limit rejection — and the rate-limit state
is never touched. -/
theorem C2_counterexample_sixth_attempt_not_rate_limited :
    runLogins [c8User] "1.2.3.4" "a@x.com" "wrong" [0, 10, 20, 30, 40, 50] []
      = (List.replicate 6
          (LoginOutcome.httpError 401 (httpExceptionStr 401 "Invalid email or password")),
         []) := by
  decide

/-- Claim C2 (amended): check_rate_limit does implement the
5-attempts-per-60-seconds sliding window — a key with at least five recorded
attempts inside the window is denied — but the login endpoint never invokes
it: the login outcome is independent of the rate-limit state and the state
is returned unchanged, so all six wrong-credential attempts (the sixth
included) receive the 401 invalid-credentials response. -/
theorem C2_rate_limiter_defined_but_not_applied
    (history : List Nat) (now : Nat)
    (hfull : RATE_LIMIT_ATTEMPTS ≤
      (history.filter (fun t => now - t < RATE_LIMIT_DURATION)).length)
    (db : List UserRec) (rl rl' : List (String × List Nat))
    (ip ip' u p : String) (t t' : Nat) :
    (check_rate_limit history now).1 = false
    ∧ (login db rl ip u p t).1 = (login db rl' ip' u p t').1
    ∧ (login db rl ip u p t).2 = rl := by
  refine ⟨?_, ?_, ?_⟩
  · simp [check_rate_limit, hfull]
  · rcases h : authenticate_user db u p with ⟨s, uo, e⟩
    cases s <;> cases uo <;> simp [login, h]
  · rcases h : authenticate_user db u p with ⟨s, uo, e⟩
    cases s <;> cases uo <;> simp [login, h]

/-- Witness for the amended C2 at a full window and a concrete store. -/
theorem C2_rate_limiter_defined_but_not_applied_witness :
    (check_rate_limit [0, 1, 2, 3, 4] 5).1 = false
    ∧ (login [c8User] [] "1.2.3.4" "a@x.com" "wrong" 0).1
        = (login [c8User] [("1.2.3.4", [0, 1, 2, 3, 4])] "5.6.7.8" "a@x.com" "wrong" 9).1
    ∧ (login [c8User] [] "1.2.3.4" "a@x.com" "wrong" 0).2 = [] :=
  C2_rate_limiter_defined_but_not_applied [0, 1, 2, 3, 4] 5 (by decide)
    [c8User] [] [("1.2.3.4", [0, 1, 2, 3, 4])] "1.2.3.4" "5.6.7.8" "a@x.com" "wrong" 0 9

inductive LogoutOutcome
  | success (message : String)
  | httpError (code : Nat) (detail : String)
deriving Repr, DecidableEq

/-- Python str.startswith, over the character list so that it evaluates in
the kernel. -/
def pyStartsWith (s pre : String) : Bool := pre.data.isPrefixOf s.data

/-- Helper for pySplitSpace: split a character list at every space. -/
def splitSpaceAux : List Char → List Char → List (List Char)
  | [], acc => [acc.reverse]
  | c :: cs, acc =>
    if c = ' ' then acc.reverse :: splitSpaceAux cs []
    else splitSpaceAux cs (c :: acc)

/-- Python str.split(" "): every space is a separator and empty pieces are
kept. -/
def pySplitSpace (s : String) : List String :=
  (splitSpaceAux s.data []).map String.mk

/-- src/routers/auth.py logout (lines 565-608): extract the bearer token from
the Authorization header, insert {token, created_at = now} into
blacklisted_tokens; because init_db (src/models/database.py line 48) puts a
unique index on token, inserting an already-revoked token raises the
E11000 duplicate-key error, which the handler logs and treats as success.
The store is the blacklisted_tokens collection as a list of entries. -/
def logout (store : List (String × Nat)) (auth_header : Option String) (now : Nat) :
    LogoutOutcome × List (String × Nat) :=
  match auth_header with
  | none => (.httpError 401 "Invalid authorization header", store)
  | some h =>
    if !pyStartsWith h "Bearer " then (.httpError 401 "Invalid authorization header", store)
    else
      let token := ((pySplitSpace h)[1]?).getD ""
      if store.any (fun e => e.1 == token) then
        (.success "Successfully logged out", store)
      else
        (.success "Successfully logged out", store ++ [(token, now)])

/-- Claim C10: logout revocation is idempotent — a fresh token is inserted
as {token, now}, a token already present leaves the store unchanged, and in
both cases the request returns the success response. -/
theorem C10_logout_revocation_idempotent (store : List (String × Nat)) (tok : String)
    (now : Nat)
    (hsw : pyStartsWith ("Bearer " ++ tok) "Bearer " = true)
    (hsp : (pySplitSpace ("Bearer " ++ tok))[1]? = some tok) :
    logout store (some ("Bearer " ++ tok)) now
      = (LogoutOutcome.success "Successfully logged out",
         if store.any (fun e => e.1 == tok) then store else store ++ [(tok, now)]) := by
  cases hdup : store.any (fun e => e.1 == tok) <;>
    simp [logout, hsw, hsp, hdup]

/-- Witness for C10: revoking the same token twice in a row — the first call
records it, the second leaves the store unchanged, both succeed. -/
theorem C10_logout_revocation_idempotent_witness :
    (logout [] (some "Bearer t1") 7
        = (LogoutOutcome.success "Successfully logged out",
           if ([] : List (String × Nat)).any (fun e => e.1 == "t1") then []
           else [] ++ [("t1", 7)]))
    ∧ (logout [("t1", 7)] (some "Bearer t1") 9
        = (LogoutOutcome.success "Successfully logged out",
           if [("t1", 7)].any (fun e => e.1 == "t1") then [("t1", 7)]
           else [("t1", 7)] ++ [("t1", 9)])) :=
  ⟨C10_logout_revocation_idempotent [] "t1" 7 (by decide) (by decide),
   C10_logout_revocation_idempotent [("t1", 7)] "t1" 9 (by decide) (by decide)⟩

/-- src/routers/auth.py CodeTracker.add_code (lines 681-686): under the lock,
refuse a code already tracked, otherwise record it with the current time. -/
def add_code (codes : List (String × Nat)) (code : String) (now : Nat) :
    Bool × List (String × Nat) :=
  if codes.any (fun e => e.1 == code) then (false, codes)
  else (true, codes ++ [(code, now)])

/-- src/routers/auth.py CodeTracker.cleanup (lines 688-693): drop entries
older than five minutes. -/
def cleanup (codes : List (String × Nat)) (now : Nat) : List (String × Nat) :=
  codes.filter (fun e => !(decide (300 < now - e.2)))

inductive GoogleAuthOutcome
  | ok (email : String)
  | httpError (code : Nat) (message : String)
deriving Repr, DecidableEq

structure GoogleAuthResult where
  response : GoogleAuthOutcome
  exchange_attempted : Bool
deriving Repr, DecidableEq

/-- src/routers/auth.py google_auth (lines 697-765): reject a missing or empty
code, then try add_code — a duplicate gets 409 Request already being
processed with no external exchange — otherwise exchange the code with the
provider (external handle_google_auth, passed as an oracle returning either
an error message or the userinfo email) and clean up old codes in the
finally block. The exchange_attempted flag records whether the external
exchange was reached. -/
def google_auth (codes : List (String × Nat)) (code : Option String)
    (exchange : String → Except String String) (now : Nat) :
    GoogleAuthResult × List (String × Nat) :=
  match code with
  | none => (⟨.httpError 400 "Authorization code is required", false⟩, codes)
  | some c =>
    if c == "" then (⟨.httpError 400 "Authorization code is required", false⟩, codes)
    else
      let r := add_code codes c now
      if r.1 = false then
        (⟨.httpError 409 "Request already being processed", false⟩, r.2)
      else
        match exchange c with
        | .error msg => (⟨.httpError 400 msg, true⟩, cleanup r.2 now)
        | .ok em => (⟨.ok em, true⟩, cleanup r.2 now)

/-- Claim C9: claiming the same authorization code twice — the first call
claims it, the second is refused by add_code with 409 Request already being
processed, before any external exchange and with the tracker unchanged;
once the sweep has dropped entries older than five minutes the code can be
claimed again. -/
theorem C9_oauth_code_dedup (codes : List (String × Nat)) (c : String)
    (ex1 ex2 : String → Except String String) (t1 t2 t3 : Nat)
    (hc : (c == "") = false)
    (hfresh : codes.any (fun e => e.1 == c) = false)
    (hwin : t2 - t1 ≤ 300)
    (hsweep : 300 < t3 - t1) :
    ((google_auth (google_auth codes (some c) ex1 t1).2 (some c) ex2 t2).1
        = ⟨GoogleAuthOutcome.httpError 409 "Request already being processed", false⟩)
    ∧ ((google_auth (google_auth codes (some c) ex1 t1).2 (some c) ex2 t2).2
        = (google_auth codes (some c) ex1 t1).2)
    ∧ ((add_code
          (cleanup (google_auth (google_auth codes (some c) ex1 t1).2 (some c) ex2 t2).2 t3)
          c t3).1 = true) := by
  have hadd1 : add_code codes c t1 = (true, codes ++ [(c, t1)]) := by
    simp [add_code, hfresh]
  have hs1 : (google_auth codes (some c) ex1 t1).2 = cleanup (codes ++ [(c, t1)]) t1 := by
    cases hex : ex1 c <;> simp [google_auth, hc, hadd1, hex]
  have hmem : (c, t1) ∈ cleanup (codes ++ [(c, t1)]) t1 := by
    simp [cleanup]
  have hany1 : (cleanup (codes ++ [(c, t1)]) t1).any (fun e => e.1 == c) = true := by
    rw [List.any_eq_true]
    exact ⟨(c, t1), hmem, by simp⟩
  have h2 : google_auth (cleanup (codes ++ [(c, t1)]) t1) (some c) ex2 t2
      = (⟨GoogleAuthOutcome.httpError 409 "Request already being processed", false⟩,
         cleanup (codes ++ [(c, t1)]) t1) := by
    simp [google_auth, hc, add_code, hany1]
  have hfresh3 : ∀ x ∈ cleanup (cleanup (codes ++ [(c, t1)]) t1) t3, ¬ (x.1 == c) = true := by
    intro x hx hxc
    have hx1 := (List.mem_filter.mp hx)
    have hx2 := (List.mem_filter.mp hx1.1)
    have hxmem : x ∈ codes ++ [(c, t1)] := hx2.1
    rcases List.mem_append.mp hxmem with hin | hone
    · have hco : codes.any (fun e => e.1 == c) = true := List.any_eq_true.mpr ⟨x, hin, hxc⟩
      rw [hfresh] at hco
      exact Bool.false_ne_true hco
    · have hx3 : x = (c, t1) := by simpa using hone
      have hkeep := hx1.2
      rw [hx3] at hkeep
      simp [hsweep] at hkeep
  have hany3 : (cleanup (cleanup (codes ++ [(c, t1)]) t1) t3).any (fun e => e.1 == c)
      = false := by
    rcases h : (cleanup (cleanup (codes ++ [(c, t1)]) t1) t3).any (fun e => e.1 == c) with _ | _
    · rfl
    · rcases List.any_eq_true.mp h with ⟨x, hx, hxc⟩
      exact absurd hxc (hfresh3 x hx)
  refine ⟨?_, ?_, ?_⟩
  · rw [hs1, h2]
  · rw [hs1, h2]
  · rw [hs1, h2]
    simp [add_code, hany3]

/-- Witness for C9: one concrete code claimed at time 0, retried at time 60,
reclaimable after a sweep at time 400. -/
theorem C9_oauth_code_dedup_witness :
    ((google_auth (google_auth [] (some "authcode") (fun c => Except.ok "g@x.com") 0).2
        (some "authcode") (fun c => Except.ok "g@x.com") 60).1
      = ⟨GoogleAuthOutcome.httpError 409 "Request already being processed", false⟩)
    ∧ ((google_auth (google_auth [] (some "authcode") (fun c => Except.ok "g@x.com") 0).2
        (some "authcode") (fun c => Except.ok "g@x.com") 60).2
      = (google_auth [] (some "authcode") (fun c => Except.ok "g@x.com") 0).2)
    ∧ ((add_code
        (cleanup (google_auth
          (google_auth [] (some "authcode") (fun c => Except.ok "g@x.com") 0).2
          (some "authcode") (fun c => Except.ok "g@x.com") 60).2 400)
        "authcode" 400).1 = true) :=
  C9_oauth_code_dedup [] "authcode" (fun c => Except.ok "g@x.com")
    (fun c => Except.ok "g@x.com") 0 60 400 (by decide) (by decide) (by decide) (by decide)

theorem updateFirst_exists {α : Type} (p : α → Bool) (f : α → α) (l : List α) (x : α)
    (hx : x ∈ l) (hpx : p x = true) :
    ∃ y, p y = true ∧ f y ∈ updateFirst p f l := by
  induction l with
  | nil => cases hx
  | cons a as ih =>
    cases hpa : p a with
    | true => exact ⟨a, hpa, by simp [updateFirst, hpa]⟩
    | false =>
      rcases List.mem_cons.mp hx with rfl | hmem
      · rw [hpa] at hpx; cases hpx
      · rcases ih hmem with ⟨y, hpy, hy⟩
        refine ⟨y, hpy, ?_⟩
        simp only [updateFirst, hpa, if_neg Bool.false_ne_true, List.mem_cons]
        exact Or.inr hy

theorem find?_updateFirst_isSome {α : Type} (p q : α → Bool) (f : α → α) (l : List α)
    (hq : ∀ z, q (f z) = q z) (h : (l.find? q).isSome) :
    ((updateFirst p f l).find? q).isSome := by
  induction l with
  | nil => simp at h
  | cons a as ih =>
    cases hpa : p a with
    | true =>
      cases hqa : q a with
      | true => simp [updateFirst, hpa, List.find?, hq a, hqa]
      | false =>
        have h' : (as.find? q).isSome := by simpa [List.find?, hqa] using h
        simpa [updateFirst, hpa, List.find?, hq a, hqa] using h'
    | false =>
      cases hqa : q a with
      | true => simp [updateFirst, hpa, List.find?, hqa]
      | false =>
        have h' : (as.find? q).isSome := by simpa [List.find?, hqa] using h
        simpa [updateFirst, hpa, List.find?, hqa] using ih h'

/-- src/services/auth_service.py get_user_by_reset_token (lines 52-57): find
a user whose password_reset_token matches and whose password_reset_expires
is strictly greater than the current time; a missing expiry never matches. -/
def get_user_by_reset_token (db : List UserRec) (token : String) (now : Nat) :
    Option UserRec :=
  db.find? (fun u => u.password_reset_token == some token
    && (match u.password_reset_expires with
        | some e => decide (now < e)
        | none => false))

/-- The $set document of create_password_reset_token (lines 180-189). -/
def setResetFields (rtok : String) (now : Nat) (v : UserRec) : UserRec :=
  { v with password_reset_token := some rtok,
           password_reset_expires := some (now + 3600),
           updated_at := now }

/-- src/services/auth_service.py create_password_reset_token (lines 161-191):
missing user or social-only account fail without touching the store; a
passworded user gets {password_reset_token, password_reset_expires = now+1h}
recorded by update_one before the function returns. The fresh uuid is passed
in as rtok. -/
def create_password_reset_token (db : List UserRec) (email rtok : String) (now : Nat) :
    (Bool × String × String) × List UserRec :=
  match get_user_by_email db email with
  | none =>
    ((false, "", "If your email is registered, you will receive a password reset link"), db)
  | some user =>
    if !strTruthy user.password_hash then
      ((false, "", "Social login accounts cannot use password reset"), db)
    else
      ((true, rtok, ""),
        updateFirst (fun v => v.id == user.id) (setResetFields rtok now) db)

inductive ForgotOutcome
  | ok (message : String)
  | httpError (code : Nat) (detail : String)
deriving Repr, DecidableEq

def genericResetMessage : String :=
  "If your email is registered, you will receive a password reset link."

/-- src/routers/auth.py forgot_password (lines 214-234): call
create_password_reset_token first; only when it succeeded with a truthy
token, reload the user and attempt the email, raising 500 when dispatch
fails; every non-raising path returns the same generic message. The
email_ok flag is the boolean returned by send_password_reset_email. An
impossible missing user after the update would raise a TypeError, which the
framework turns into a generic 500. -/
def forgot_password (db : List UserRec) (email_ok : Bool) (email rtok : String)
    (now : Nat) : ForgotOutcome × List UserRec :=
  match create_password_reset_token db email rtok now with
  | ((success, token, _msg), db1) =>
    if success && token != "" then
      match get_user_by_email db1 email with
      | none => (.httpError 500 "Internal Server Error", db1)
      | some _user =>
        if !email_ok then
          (.httpError 500 "Failed to send password reset email. Please try again.", db1)
        else (.ok genericResetMessage, db1)
    else (.ok genericResetMessage, db1)

/-- The $set document of reset_password (lines 205-216): replace the hash and
clear both reset-token fields. -/
def consumeResetFields (new_password : String) (now : Nat) (v : UserRec) : UserRec :=
  { v with password_hash := some (get_password_hash new_password),
           password_reset_token := none,
           password_reset_expires := none,
           updated_at := now }

/-- src/services/auth_service.py reset_password (lines 193-221): locate the
user through get_user_by_reset_token; on a miss, fail as invalid-or-expired
with the store untouched; on a hit, atomically replace the password hash and
clear both reset fields. -/
def reset_password (db : List UserRec) (token new_password : String) (now : Nat) :
    (Bool × String × Option UserRec) × List UserRec :=
  match get_user_by_reset_token db token now with
  | none => ((false, "Invalid or expired token", none), db)
  | some user =>
    let r := findOneAndUpdate (fun v => v.id == user.id)
      (consumeResetFields new_password now) db
    ((true, "", r.1), r.2)

/-- Request body of POST /api/auth/signup (models/user.py UserCreate). -/
structure SignupData where
  name : String
  email : String
  password : String
  phone : Option String
deriving Repr, DecidableEq

inductive SignupOutcome
  | created (message email : String)
  | httpError (code : Nat) (detail : String)
deriving Repr, DecidableEq

/-- src/routers/auth.py signup (lines 96-160): reject a duplicate email,
build the user document, send the verification email FIRST, abort with 500
when dispatch fails, and only insert the user after a successful send. The
fresh uuid and object id are passed in as vtok and newId. -/
def signup (db : List UserRec) (email_ok : Bool) (data : SignupData)
    (vtok newId : String) (now : Nat) : SignupOutcome × List UserRec :=
  match db.find? (fun u => u.email == data.email) with
  | some _ => (.httpError 400 "User with this email already exists", db)
  | none =>
    let user : UserRec :=
      { id := newId, name := data.name, email := data.email, username := data.email,
        password_hash := some (get_password_hash data.password), phone := data.phone,
        is_verified := false, email_verified := false, email_verified_at := none,
        verification_token := some vtok, password_reset_token := none,
        password_reset_expires := none, is_active := none,
        created_at := now, updated_at := now }
    if !email_ok then
      (.httpError 500 "Failed to send verification email", db)
    else
      (.created "User created successfully. Please check your email for verification."
        data.email, db ++ [user])

/-- Claim C6: when every stored occurrence of the reset token has an expiry
that is not greater than the current time (or no expiry at all), a reset
attempt fails as Invalid or expired token and the user store — including
the stored token fields — is left entirely unchanged; nothing expires the
fields in the background. -/
theorem C6_reset_password_expired_fails (db : List UserRec) (t np : String) (now : Nat)
    (h : ∀ u ∈ db, u.password_reset_token = some t →
      ∀ e, u.password_reset_expires = some e → e ≤ now) :
    reset_password db t np now = ((false, "Invalid or expired token", none), db) := by
  have hnone : get_user_by_reset_token db t now = none := by
    unfold get_user_by_reset_token
    rw [List.find?_eq_none]
    intro u hu hp
    rw [Bool.and_eq_true] at hp
    have htok : u.password_reset_token = some t := by
      have := hp.1
      exact beq_iff_eq.mp this
    cases he : u.password_reset_expires with
    | none => rw [he] at hp; simp at hp
    | some e =>
      have hlt : now < e := by
        have := hp.2
        rw [he] at this
        simpa using this
      have hle : e ≤ now := h u hu htok e he
      omega
  simp [reset_password, hnone]

/-- Witness for C6: a token whose expiry equals the current instant (thus not
strictly greater) is rejected and the record keeps its fields. -/
theorem C6_reset_password_expired_fails_witness :
    reset_password
      [{ c8User with password_reset_token := some "rt1", password_reset_expires := some 10 }]
      "rt1" "NewPw1!" 10
      = ((false, "Invalid or expired token", none),
         [{ c8User with password_reset_token := some "rt1",
                        password_reset_expires := some 10 }]) :=
  C6_reset_password_expired_fails
    [{ c8User with password_reset_token := some "rt1", password_reset_expires := some 10 }]
    "rt1" "NewPw1!" 10 (by decide)

/-- Claim C7: whenever the outbound email does not fail, the forgot-password
endpoint answers with the one generic message for every store and every
input email, so the response does not reveal whether the email is
registered. -/
theorem C7_forgot_password_uniform (db : List UserRec) (email rtok : String) (now : Nat) :
    (forgot_password db true email rtok now).1 = ForgotOutcome.ok genericResetMessage := by
  unfold forgot_password
  cases hfind : get_user_by_email db email with
  | none =>
    have hfind' : db.find? (fun v => v.email == email) = none := hfind
    simp [create_password_reset_token, get_user_by_email, hfind']
  | some u =>
    have hfind' : db.find? (fun v => v.email == email) = some u := hfind
    cases hph : strTruthy u.password_hash with
    | false => simp [create_password_reset_token, get_user_by_email, hfind', hph]
    | true =>
      cases hrt : rtok == "" with
      | true =>
        simp [create_password_reset_token, get_user_by_email, hfind', hph, bne, hrt]
      | false =>
        have hsome : ((updateFirst (fun v => v.id == u.id) (setResetFields rtok now)
            db).find? (fun v => v.email == email)).isSome := by
          apply find?_updateFirst_isSome
          · intro z; rfl
          · rw [hfind']; rfl
        rcases Option.isSome_iff_exists.mp hsome with ⟨w, hw⟩
        simp [create_password_reset_token, get_user_by_email, hfind', hph, bne, hrt, hw]

/-- Counterexample to claim C4 as stated: with one registered passworded user
and a failing email dispatch, forgot-password returns the 500 failure yet
the reset token has already been recorded on the user record. -/
theorem C4_counterexample_token_recorded_despite_email_failure :
    (forgot_password [c8User] false "a@x.com" "r1" 0).1
      = ForgotOutcome.httpError 500 "Failed to send password reset email. Please try again."
    ∧ (forgot_password [c8User] false "a@x.com" "r1" 0).2.map
        (fun u => (u.password_reset_token, u.password_reset_expires))
      = [(some "r1", some 3600)] := by
  decide

/-- Claim C4 (amended): a failed email send during signup aborts the
operation — the store is unchanged and no created response is produced —
but on forgot-password the reset token is recorded on the user record by
create_password_reset_token before the email is attempted, so when dispatch
fails the handler returns the 500 failure while the recorded token and
expiry remain in the store. (The post-verification success notification is
still fire-and-forget.) -/
theorem C4_email_failure_signup_aborts_forgot_password_does_not
    (db : List UserRec) (data : SignupData) (vtok newId : String) (now : Nat)
    (email rtok : String) (u : UserRec)
    (hu : get_user_by_email db email = some u)
    (hph : strTruthy u.password_hash = true)
    (hrt : (rtok == "") = false) :
    ((signup db false data vtok newId now).2 = db)
    ∧ (∀ m e2, (signup db false data vtok newId now).1 ≠ SignupOutcome.created m e2)
    ∧ ((forgot_password db false email rtok now).1
        = ForgotOutcome.httpError 500 "Failed to send password reset email. Please try again.")
    ∧ (∃ v, v ∈ (forgot_password db false email rtok now).2
        ∧ v.password_reset_token = some rtok ∧ v.password_reset_expires = some (now + 3600)) := by
  have hu' : db.find? (fun v => v.email == email) = some u := hu
  have hmem : u ∈ db := List.mem_of_find?_eq_some hu'
  have hpu : (fun v => v.id == u.id) u = true := by simp
  rcases updateFirst_exists (fun v => v.id == u.id) (setResetFields rtok now) db u hmem hpu
    with ⟨y, hpy, hy⟩
  have hsome : ((updateFirst (fun v => v.id == u.id) (setResetFields rtok now)
      db).find? (fun v => v.email == email)).isSome := by
    apply find?_updateFirst_isSome
    · intro z; rfl
    · rw [hu']; rfl
  rcases Option.isSome_iff_exists.mp hsome with ⟨w, hw⟩
  refine ⟨?_, ?_, ?_, ?_⟩
  · cases hdup : db.find? (fun v => v.email == data.email) with
    | none => simp [signup, hdup]
    | some z => simp [signup, hdup]
  · intro m e2
    cases hdup : db.find? (fun v => v.email == data.email) with
    | none => simp [signup, hdup]
    | some z => simp [signup, hdup]
  · simp [forgot_password, create_password_reset_token, get_user_by_email, hu', hph,
      bne, hrt, hw]
  · refine ⟨setResetFields rtok now y, ?_, rfl, rfl⟩
    simp [forgot_password, create_password_reset_token, get_user_by_email, hu', hph,
      bne, hrt, hw]
    exact hy

/-- Witness for the amended C4 at a concrete store. -/
theorem C4_email_failure_signup_aborts_forgot_password_does_not_witness :
    ((signup [c8User] false
        { name := "B", email := "b@x.com", password := "Pw1!", phone := none }
        "v1" "u2" 0).2 = [c8User])
    ∧ (∀ m e2, (signup [c8User] false
        { name := "B", email := "b@x.com", password := "Pw1!", phone := none }
        "v1" "u2" 0).1 ≠ SignupOutcome.created m e2)
    ∧ ((forgot_password [c8User] false "a@x.com" "r1" 0).1
        = ForgotOutcome.httpError 500 "Failed to send password reset email. Please try again.")
    ∧ (∃ v, v ∈ (forgot_password [c8User] false "a@x.com" "r1" 0).2
        ∧ v.password_reset_token = some "r1" ∧ v.password_reset_expires = some (0 + 3600)) :=
  C4_email_failure_signup_aborts_forgot_password_does_not [c8User]
    { name := "B", email := "b@x.com", password := "Pw1!", phone := none }
    "v1" "u2" 0 "a@x.com" "r1" c8User (by decide) (by decide) (by decide)

theorem find?_append_none {α : Type} (p : α → Bool) (l : List α) (x : α)
    (h : l.find? p = none) (hx : p x = true) :
    (l ++ [x]).find? p = some x := by
  induction l with
  | nil => simp [List.find?, hx]
  | cons a as ih =>
    have hl := List.find?_eq_none.mp h
    have ha : p a = false := by
      cases hpa : p a with
      | false => rfl
      | true => exact absurd hpa (hl a (List.mem_cons_self a as))
    have has : as.find? p = none := by
      rw [List.find?_eq_none]
      intro y hy
      exact hl y (List.mem_cons_of_mem a hy)
    simpa [List.find?, ha] using ih has

/-- Whitespace characters stripped by Python str.strip. -/
def isSpaceChar (c : Char) : Bool :=
  c = ' ' || c = '\t' || c = '\n' || c = '\r'

/-- Python str.strip with no argument removes ASCII whitespace from both
ends; over the character list so that it evaluates in the kernel. -/
def pyStrip (s : String) : String :=
  String.mk (((s.data.dropWhile isSpaceChar).reverse.dropWhile isSpaceChar).reverse)

/-- A document of the verification_tokens side collection
(src/routers/auth.py verify_email_endpoint). -/
structure VerifRec where
  token : String
  user_id : String
  verified : Bool
  created_at : Nat
deriving Repr, DecidableEq

/-- The state touched by the verify-email endpoint: the users collection,
the verification_tokens collection, and the success emails queued through
background_tasks. -/
structure VerifyState where
  users : List UserRec
  verification_tokens : List VerifRec
  success_emails : List (String × String)
deriving Repr, DecidableEq

inductive VerifyStatus
  | verified
  | already_verified
  | expired
  | failed
deriving Repr, DecidableEq

structure VerifyResponse where
  http_code : Nat
  success : Bool
  status : VerifyStatus
  message : String
deriving Repr, DecidableEq

/-- The $set document of the atomic verification update (lines 380-389). -/
def markVerified (now : Nat) (u : UserRec) : UserRec :=
  { u with is_verified := true, verification_token := none, email_verified := true,
           email_verified_at := some now, updated_at := now }

/-- src/routers/auth.py verify_email_endpoint (lines 341-429), user phase:
find an unexpired user by verification token (created_at greater than one
day ago, rendered as the integer inequality now less than created_at plus
86400); an already-verified user yields already_verified and a record in
verification_tokens; otherwise the atomic find_one_and_update flips
is_verified, records the token, and queues the success email. -/
def verify_email_user_phase (st : VerifyState) (now : Nat) (token : String) :
    VerifyResponse × VerifyState :=
  match st.users.find? (fun u => u.verification_token == some token
      && decide (now < u.created_at + 86400)) with
  | none => (⟨400, false, .expired, "Invalid or expired verification token"⟩, st)
  | some user =>
    if user.is_verified then
      (⟨200, true, .already_verified, "Email already verified"⟩,
        { st with verification_tokens :=
            st.verification_tokens ++ [⟨token, user.id, true, now⟩] })
    else
      match findOneAndUpdate (fun v => v.id == user.id && v.is_verified == false)
          (markVerified now) st.users with
      | (some result, users2) =>
        (⟨200, true, .verified, "Email verified successfully"⟩,
          { users := users2,
            verification_tokens := st.verification_tokens ++ [⟨token, result.id, true, now⟩],
            success_emails := st.success_emails ++ [(result.email, result.name)] })
      | (none, users2) =>
        (⟨400, false, .failed, "Verification failed"⟩, { st with users := users2 })

/-- src/routers/auth.py verify_email_endpoint (lines 309-440): strip the
submitted token, consult the verification_tokens side collection first — a
verified record younger than two hours answers already_verified with no
state change, an older one answers expired — and otherwise fall through to
the user phase. -/
def verify_email_endpoint (st : VerifyState) (now : Nat) (rawToken : String) :
    VerifyResponse × VerifyState :=
  let token := pyStrip rawToken
  match st.verification_tokens.find? (fun v => v.token == token) with
  | some verification =>
    if verification.verified then
      if now - verification.created_at ≤ 7200 then
        (⟨200, true, .already_verified, "Email already verified"⟩, st)
      else (⟨400, false, .expired, "Verification token has expired"⟩, st)
    else verify_email_user_phase st now token
  | none => verify_email_user_phase st now token

theorem findOneAndUpdate_isSome {α : Type} (p : α → Bool) (f : α → α) (l : List α) (x : α)
    (hx : x ∈ l) (hpx : p x = true) :
    ∃ y ys, findOneAndUpdate p f l = (some (f y), ys) ∧ p y = true := by
  induction l with
  | nil => cases hx
  | cons a as ih =>
    cases hpa : p a with
    | true => exact ⟨a, f a :: as, by simp [findOneAndUpdate, hpa], hpa⟩
    | false =>
      rcases List.mem_cons.mp hx with rfl | hmem
      · rw [hpa] at hpx; cases hpx
      · rcases ih hmem with ⟨y, ys, hys, hpy⟩
        exact ⟨y, a :: ys, by simp [findOneAndUpdate, hpa, hys], hpy⟩

/-- Claim C3: a valid, unconsumed verification token — no side-collection
record yet, matching an unexpired unverified user — verifies on the first
call; an immediate second call (within the two-hour replay window) answers
already_verified and changes nothing: the user store, the token records and
the queued success emails all stay exactly as the first call left them. -/
theorem C3_verify_email_idempotent (st : VerifyState) (t : String) (now1 now2 : Nat)
    (u : UserRec)
    (htrim : pyStrip t = t)
    (hvt : st.verification_tokens.find? (fun v => v.token == t) = none)
    (hu : st.users.find? (fun w => w.verification_token == some t
        && decide (now1 < w.created_at + 86400)) = some u)
    (hnv : u.is_verified = false)
    (hwin : now2 - now1 ≤ 7200) :
    (verify_email_endpoint st now1 t).1.status = VerifyStatus.verified
    ∧ (verify_email_endpoint (verify_email_endpoint st now1 t).2 now2 t).1.status
        = VerifyStatus.already_verified
    ∧ (verify_email_endpoint (verify_email_endpoint st now1 t).2 now2 t).2
        = (verify_email_endpoint st now1 t).2 := by
  rcases findOneAndUpdate_isSome (fun v => v.id == u.id && !v.is_verified)
      (markVerified now1) st.users u (List.mem_of_find?_eq_some hu) (by simp [hnv])
    with ⟨y, ys, hys, hpy⟩
  have h1 : verify_email_endpoint st now1 t
      = (⟨200, true, VerifyStatus.verified, "Email verified successfully"⟩,
         { users := ys,
           verification_tokens := st.verification_tokens
             ++ [{ token := t, user_id := (markVerified now1 y).id, verified := true,
                   created_at := now1 }],
           success_emails := st.success_emails
             ++ [((markVerified now1 y).email, (markVerified now1 y).name)] }) := by
    simp [verify_email_endpoint, htrim, hvt, verify_email_user_phase, hu, hnv, hys]
  have hfind2 : (st.verification_tokens
      ++ [({ token := t, user_id := (markVerified now1 y).id, verified := true,
             created_at := now1 } : VerifRec)]).find? (fun v => v.token == t)
      = some { token := t, user_id := (markVerified now1 y).id, verified := true,
               created_at := now1 } :=
    find?_append_none (fun v => v.token == t) st.verification_tokens
      { token := t, user_id := (markVerified now1 y).id, verified := true,
        created_at := now1 } hvt (by simp)
  have h2 : verify_email_endpoint (verify_email_endpoint st now1 t).2 now2 t
      = (⟨200, true, VerifyStatus.already_verified, "Email already verified"⟩,
         (verify_email_endpoint st now1 t).2) := by
    rw [h1]
    simp [verify_email_endpoint, htrim, hfind2, hwin]
  exact ⟨by rw [h1], by rw [h2], by rw [h2]⟩

def c3User : UserRec :=
  { c8User with verification_token := some "vtok" }

def c3State : VerifyState :=
  { users := [c3User], verification_tokens := [], success_emails := [] }

/-- Witness for C3: a concrete signup-fresh user verified at time 0 and
replayed at time 100. -/
theorem C3_verify_email_idempotent_witness :
    (verify_email_endpoint c3State 0 "vtok").1.status = VerifyStatus.verified
    ∧ (verify_email_endpoint (verify_email_endpoint c3State 0 "vtok").2 100 "vtok").1.status
        = VerifyStatus.already_verified
    ∧ (verify_email_endpoint (verify_email_endpoint c3State 0 "vtok").2 100 "vtok").2
        = (verify_email_endpoint c3State 0 "vtok").2 :=
  C3_verify_email_idempotent c3State "vtok" 0 100 c3User (by decide) (by decide)
    (by decide) (by decide) (by decide)

end FSP
